import Mathlib

/-!
Verification of the link-construction handler of the `filetolink` bot
(`src/bot.py`) against its specification.

The development shallowly embeds:
* the parts of CPython's `urllib.parse` used by the handler
  (`quote`, `quote_plus`) and their decoding counterparts
  (`unquote`, `unquote_plus`), over Lean `String`s
  (UTF-8 byte sequences are lists of `Nat` below 256);
* the `handle_file` coroutine of `src/bot.py`, with the Telegram
  `get_file` network call abstracted as an `Except`-valued oracle and
  the outgoing replies / attempted API calls collected in a result
  record.
-/

namespace FileToLink

/-- UTF-8 encoding of a single Unicode scalar value, as a list of bytes.
This is what `str.encode("utf-8")` does to each character of a Python
string (Lean `Char` excludes surrogates, exactly the values for which
CPython's encoder succeeds). -/
def utf8Bytes (c : Char) : List Nat :=
  let n := c.toNat
  if n < 128 then [n]
  else if n < 2048 then [192 + n / 64, 128 + n % 64]
  else if n < 65536 then [224 + n / 4096, 128 + n / 64 % 64, 128 + n % 64]
  else [240 + n / 262144, 128 + n / 4096 % 64, 128 + n / 64 % 64, 128 + n % 64]

/-- UTF-8 encoding of a character sequence. -/
def utf8Encode : List Char → List Nat
  | [] => []
  | c :: cs => utf8Bytes c ++ utf8Encode cs

/-- One step of strict UTF-8 decoding: given a leading byte `b0` and
the remaining bytes, yield the decoded scalar value together with the
number of continuation bytes consumed, or `none` on a malformed
sequence (stray continuation byte, truncated or overlong form,
surrogate, value beyond `0x10FFFF`). -/
def utf8Step (b0 : Nat) (rest : List Nat) : Option (Nat × Nat) :=
  if b0 < 128 then some (b0, 0)
  else if b0 < 192 then none
  else if b0 < 224 then
    match rest with
    | b1 :: _ =>
      if 128 ≤ b1 ∧ b1 < 192 then
        let n := (b0 - 192) * 64 + (b1 - 128)
        if 128 ≤ n then some (n, 1) else none
      else none
    | [] => none
  else if b0 < 240 then
    match rest with
    | b1 :: b2 :: _ =>
      if (128 ≤ b1 ∧ b1 < 192) ∧ (128 ≤ b2 ∧ b2 < 192) then
        let n := (b0 - 224) * 4096 + (b1 - 128) * 64 + (b2 - 128)
        if 2048 ≤ n ∧ ¬(55296 ≤ n ∧ n < 57344) then some (n, 2) else none
      else none
    | _ => none
  else if b0 < 248 then
    match rest with
    | b1 :: b2 :: b3 :: _ =>
      if (128 ≤ b1 ∧ b1 < 192) ∧ (128 ≤ b2 ∧ b2 < 192) ∧ (128 ≤ b3 ∧ b3 < 192) then
        let n := (b0 - 240) * 262144 + (b1 - 128) * 4096 + (b2 - 128) * 64 + (b3 - 128)
        if 65536 ≤ n ∧ n < 1114112 then some (n, 3) else none
      else none
    | _ => none
  else none

/-- Strict UTF-8 decoding of a byte sequence (rejecting overlong forms,
surrogates and out-of-range values).  `none` models a malformed
sequence; CPython's `unquote` replaces malformed sequences instead, but
no theorem below ever reaches that case, so failure is left abstract. -/
def utf8Decode : List Nat → Option (List Char)
  | [] => some []
  | b0 :: rest =>
    match utf8Step b0 rest with
    | none => none
    | some (n, k) => (utf8Decode (rest.drop k)).map (fun cs => Char.ofNat n :: cs)
termination_by bs => bs.length
decreasing_by simp_wf; omega

/-- Byte-level safety test of `urllib.parse`'s quoter: a byte survives
unescaped iff it is one of the always-safe bytes
(`A`-`Z`, `a`-`z`, `0`-`9`, `_`, `.`, `-`, `~`) or the ASCII byte of a
character of the extra `safe` argument. -/
def safeByte (extra : List Char) (b : Nat) : Bool :=
  decide ((65 ≤ b ∧ b ≤ 90) ∨ (97 ≤ b ∧ b ≤ 122) ∨ (48 ≤ b ∧ b ≤ 57) ∨
    b = 95 ∨ b = 46 ∨ b = 45 ∨ b = 126 ∨ (b < 128 ∧ Char.ofNat b ∈ extra))

/-- Upper-case hexadecimal digit, as used by `urllib.parse`'s
percent-escapes (`"%{:02X}".format(b)`). -/
def hexDigitChar (n : Nat) : Char :=
  if n < 10 then Char.ofNat (48 + n) else Char.ofNat (55 + n)

/-- Percent-escape of one byte: `%` followed by two upper-case hex digits. -/
def percentEscape (b : Nat) : List Char :=
  ['%', hexDigitChar (b / 16), hexDigitChar (b % 16)]

/-- `urllib.parse.quote_from_bytes`: safe bytes pass through as ASCII
characters, every other byte becomes a percent-escape. -/
def quoteBytes (extra : List Char) : List Nat → List Char
  | [] => []
  | b :: bs =>
    (if safeByte extra b then [Char.ofNat b] else percentEscape b) ++ quoteBytes extra bs

/-- `urllib.parse.quote(s, safe)`: UTF-8 encode, then percent-escape all
unsafe bytes. -/
def quote_with (extra : List Char) (s : String) : String :=
  String.mk (quoteBytes extra (utf8Encode s.data))

/-- `urllib.parse.quote(s)` with its default `safe="/"` — the
path-segment encoding used for the filename in `src/bot.py` line 90. -/
def quote (s : String) : String :=
  quote_with ['/'] s

/-- `urllib.parse.quote_plus(s)` with its default `safe=""`: if the
string contains a space, quote with space kept safe and then turn every
space into `+`; otherwise plain `quote` with empty `safe` — the
query-value encoding used for the Telegram URL in `src/bot.py` line 82. -/
def quote_plus (s : String) : String :=
  if ' ' ∈ s.data then
    String.mk ((quote_with [' '] s).data.map (fun c => if c = ' ' then '+' else c))
  else quote_with [] s

/-- Decoded value of one hexadecimal digit (both cases, as accepted by
`urllib.parse.unquote`). -/
def hexVal (c : Char) : Nat :=
  if '0' ≤ c ∧ c ≤ '9' then c.toNat - 48
  else if 'A' ≤ c ∧ c ≤ 'F' then c.toNat - 55
  else c.toNat - 87

/-- Hexadecimal-digit test (both cases). -/
def isHexDigit (c : Char) : Bool :=
  decide (('0' ≤ c ∧ c ≤ '9') ∨ ('A' ≤ c ∧ c ≤ 'F') ∨ ('a' ≤ c ∧ c ≤ 'f'))

/-- One step of `urllib.parse.unquote`'s percent-unescaping: the bytes
contributed by the leading character, and how many further characters
are consumed.  A `%` followed by two hex digits yields that byte (and
consumes the two digits); any other character — including a `%` not
starting a valid escape — contributes its own UTF-8 bytes. -/
def percentStep (c : Char) (rest : List Char) : List Nat × Nat :=
  if c = '%' then
    match rest with
    | h1 :: h2 :: _ =>
      if isHexDigit h1 ∧ isHexDigit h2 then ([hexVal h1 * 16 + hexVal h2], 2)
      else (utf8Bytes c, 0)
    | _ => (utf8Bytes c, 0)
  else (utf8Bytes c, 0)

/-- Percent-unescaping pass of `urllib.parse.unquote`. -/
def percentDecode : List Char → List Nat
  | [] => []
  | c :: rest => (percentStep c rest).1 ++ percentDecode (rest.drop (percentStep c rest).2)
termination_by cs => cs.length
decreasing_by simp_wf; omega

/-- `urllib.parse.unquote`: percent-unescape, then UTF-8 decode
(strictly; see `utf8Decode`). -/
def unquote (s : String) : Option String :=
  (utf8Decode (percentDecode s.data)).map String.mk

/-- `urllib.parse.unquote_plus`: replace `+` by a space, then `unquote`. -/
def unquote_plus (s : String) : Option String :=
  unquote (String.mk (s.data.map (fun c => if c = '+' then ' ' else c)))

/-- Metadata of one Telegram attachment, as read by `handle_file`
(`message.video` / `message.audio` / `message.document`):
`file_id` (the opaque retrieval handle), `file_unique_id` and the
optional `file_name`. -/
structure FileInfo where
  file_id : String
  file_unique_id : String
  file_name : Option String
deriving DecidableEq

/-- The attachment slots of an incoming message that `handle_file`
inspects. -/
structure Message where
  video : Option FileInfo
  audio : Option FileInfo
  document : Option FileInfo
deriving DecidableEq

/-- The two environment-provided configuration values (`BOT_TOKEN`,
`VERCEL_BASE_URL`); `none` models an unset variable, exactly what
`os.environ.get` yields then. -/
structure Config where
  BOT_TOKEN : Option String
  VERCEL_BASE_URL : Option String
deriving DecidableEq

/-- Observable outcome of one `handle_file` invocation: the texts sent
with `reply_text`, and the `file_id`s passed to the platform's
`get_file` API (so that claims about "no network call" are statable). -/
structure HandlerResult where
  replies : List String
  apiCalls : List String
deriving DecidableEq

/-- Python's `x or y` on an optional string: `y` when `x` is `None` or
empty (falsy), else the string itself. -/
def pyOr (x : Option String) (y : String) : String :=
  match x with
  | none => y
  | some s => if s = "" then y else s

/-- Python's f-string interpolation of an optional string: `None` prints
as the four letters `None`. -/
def pyStr (x : Option String) : String :=
  match x with
  | none => "None"
  | some s => s

/-- Python truthiness of an optional string (`if not X` tests the
negation of this). -/
def truthy (x : Option String) : Bool :=
  match x with
  | none => false
  | some s => s != ""

/-- Lines 48-56 of `src/bot.py`: the `if message.video / elif
message.audio / elif message.document` chain, returning the selected
attachment together with the derived filename
(`file_info.file_name or f"{kind}_{file_unique_id}{ext}"`). -/
def classify (message : Message) : Option (FileInfo × String) :=
  match message.video with
  | some fi => some (fi, pyOr fi.file_name ("video_" ++ fi.file_unique_id ++ ".mp4"))
  | none =>
    match message.audio with
    | some fi => some (fi, pyOr fi.file_name ("audio_" ++ fi.file_unique_id ++ ".mp3"))
    | none =>
      match message.document with
      | some fi => some (fi, pyOr fi.file_name ("document_" ++ fi.file_unique_id))
      | none => none

/-- Line 79 of `src/bot.py`: the direct Telegram file URL
`f"https://api.telegram.org/file/bot{BOT_TOKEN}/{file_path}"`. -/
def telegramFileUrl (token filePath : String) : String :=
  "https://api.telegram.org/file/bot" ++ token ++ "/" ++ filePath

/-- Lines 95-100 of `src/bot.py`: the reply text embedding the filename
and the two links. -/
def responseText (file_name streaming_link download_link : String) : String :=
  "**File:** `" ++ file_name ++ "`\n\n" ++
  "**Streaming Link:**\n`" ++ streaming_link ++ "`\n\n" ++
  "**Download Link:**\n`" ++ download_link ++ "`\n\n" ++
  "The Vercel application will stream the file directly from Telegram's servers."

/-- The `handle_file` coroutine of `src/bot.py` (lines 41-106).
`getFile` abstracts `context.bot.get_file`: `.ok` carries the returned
`file_path`, `.error` the text of a raised exception; the `try/except`
of lines 66-106 catches the latter.  Total by construction — no
exception escapes the handler. -/
def handle_file (cfg : Config) (getFile : String → Except String String)
    (message : Message) : HandlerResult :=
  match classify message with
  | none =>
    { replies := ["Please send a file (video, audio, or document)."], apiCalls := [] }
  | some (file_info, file_name) =>
    if truthy cfg.VERCEL_BASE_URL = false then
      { replies := ["Error: VERCEL_BASE_URL is not configured. Please set the environment variable."],
        apiCalls := [] }
    else
      match getFile file_info.file_id with
      | .error e =>
        { replies := ["An error occurred while generating the links: " ++ e],
          apiCalls := [file_info.file_id] }
      | .ok file_path =>
        let telegram_file_url := telegramFileUrl (pyStr cfg.BOT_TOKEN) file_path
        let encoded_telegram_url := quote_plus telegram_file_url
        let safe_filename := quote file_name
        let streaming_link :=
          pyStr cfg.VERCEL_BASE_URL ++ "/watch/" ++ safe_filename ++ "?file_url=" ++ encoded_telegram_url
        let download_link :=
          pyStr cfg.VERCEL_BASE_URL ++ "/download/" ++ safe_filename ++ "?file_url=" ++ encoded_telegram_url
        { replies := [responseText file_name streaming_link download_link],
          apiCalls := [file_info.file_id] }

/-- The part of the streaming link strictly before the `?file_url=`
query string (`src/bot.py` line 92).  It is a function of the base URL
and the filename only — the bot token is not an argument. -/
def watchFront (base fname : String) : String :=
  base ++ "/watch/" ++ quote fname

/-- The part of the download link strictly before the `?file_url=`
query string (`src/bot.py` line 93).  It is a function of the base URL
and the filename only — the bot token is not an argument. -/
def downloadFront (base fname : String) : String :=
  base ++ "/download/" ++ quote fname

/-! ### Helper lemmas about characters and UTF-8 -/

theorem char_toNat_ofNat (n : Nat) (h : Nat.isValidChar n) : (Char.ofNat n).toNat = n := by
  simp only [Char.ofNat]
  rw [dif_pos h]
  rfl

theorem char_valid_ranges (c : Char) :
    c.toNat < 55296 ∨ (57343 < c.toNat ∧ c.toNat < 1114112) := c.valid

theorem utf8Bytes_lt (c : Char) : ∀ b ∈ utf8Bytes c, b < 256 := by
  have hv := char_valid_ranges c
  intro b hb
  simp only [utf8Bytes] at hb
  split_ifs at hb <;> simp only [List.mem_cons, List.mem_singleton, List.not_mem_nil] at hb <;>
    rcases hb with rfl | hb <;> first | omega | (rcases hb with rfl | hb <;>
      first | omega | (rcases hb with rfl | hb <;> first | omega | (rcases hb with rfl | hb <;>
        first | omega | cases hb)))

theorem utf8Encode_lt (cs : List Char) : ∀ b ∈ utf8Encode cs, b < 256 := by
  induction cs with
  | nil => intro b hb; cases hb
  | cons c cs ih =>
    intro b hb
    rw [utf8Encode, List.mem_append] at hb
    rcases hb with hb | hb
    · exact utf8Bytes_lt c b hb
    · exact ih b hb

theorem utf8Decode_cons (b0 : Nat) (rest : List Nat) :
    utf8Decode (b0 :: rest) =
      match utf8Step b0 rest with
      | none => none
      | some (n, k) => (utf8Decode (rest.drop k)).map (fun cs => Char.ofNat n :: cs) := by
  rw [utf8Decode]

theorem utf8Decode_of_step (b0 n k : Nat) (rest : List Nat)
    (h : utf8Step b0 rest = some (n, k)) :
    utf8Decode (b0 :: rest) = (utf8Decode (rest.drop k)).map (fun cs => Char.ofNat n :: cs) := by
  rw [utf8Decode_cons, h]

theorem utf8Decode_utf8Bytes (c : Char) (rest : List Nat) :
    utf8Decode (utf8Bytes c ++ rest) = (utf8Decode rest).map (fun cs => c :: cs) := by
  have hv := char_valid_ranges c
  have hofn : Char.ofNat c.toNat = c := Char.ofNat_toNat c
  by_cases hA : c.toNat < 128
  · have hb : utf8Bytes c = [c.toNat] := by simp [utf8Bytes, hA]
    have hstep : utf8Step c.toNat rest = some (c.toNat, 0) := by simp [utf8Step, hA]
    rw [hb, List.singleton_append, utf8Decode_of_step _ _ _ _ hstep, List.drop_zero, hofn]
  · by_cases hB : c.toNat < 2048
    · have hb : utf8Bytes c = [192 + c.toNat / 64, 128 + c.toNat % 64] := by
        simp [utf8Bytes, hA, hB]
      have hstep : utf8Step (192 + c.toNat / 64) ((128 + c.toNat % 64) :: rest) =
          some (c.toNat, 1) := by
        have e1 : ¬ (192 + c.toNat / 64 < 128) := by omega
        have e2 : ¬ (192 + c.toNat / 64 < 192) := by omega
        have e3 : 192 + c.toNat / 64 < 224 := by omega
        have e4 : 128 ≤ 128 + c.toNat % 64 ∧ 128 + c.toNat % 64 < 192 := by omega
        simp [utf8Step, e1, e2, e3, e4]
        all_goals omega
      rw [hb, List.cons_append, List.cons_append, List.nil_append,
        utf8Decode_of_step _ _ _ _ hstep, List.drop_succ_cons, List.drop_zero, hofn]
    · by_cases hC : c.toNat < 65536
      · have hb : utf8Bytes c =
            [224 + c.toNat / 4096, 128 + c.toNat / 64 % 64, 128 + c.toNat % 64] := by
          simp [utf8Bytes, hA, hB, hC]
        have hstep : utf8Step (224 + c.toNat / 4096)
            ((128 + c.toNat / 64 % 64) :: (128 + c.toNat % 64) :: rest) =
            some (c.toNat, 2) := by
          have e1 : ¬ (224 + c.toNat / 4096 < 128) := by omega
          have e2 : ¬ (224 + c.toNat / 4096 < 192) := by omega
          have e3 : ¬ (224 + c.toNat / 4096 < 224) := by omega
          have e4 : 224 + c.toNat / 4096 < 240 := by omega
          have e5 : (128 ≤ 128 + c.toNat / 64 % 64 ∧ 128 + c.toNat / 64 % 64 < 192) ∧
              (128 ≤ 128 + c.toNat % 64 ∧ 128 + c.toNat % 64 < 192) := by omega
          simp [utf8Step, e1, e2, e3, e4, e5]
          all_goals omega
        rw [hb, List.cons_append, List.cons_append, List.cons_append, List.nil_append,
          utf8Decode_of_step _ _ _ _ hstep, List.drop_succ_cons, List.drop_succ_cons,
          List.drop_zero, hofn]
      · have hb : utf8Bytes c = [240 + c.toNat / 262144, 128 + c.toNat / 4096 % 64,
            128 + c.toNat / 64 % 64, 128 + c.toNat % 64] := by
          simp [utf8Bytes, hA, hB, hC]
        have hstep : utf8Step (240 + c.toNat / 262144)
            ((128 + c.toNat / 4096 % 64) :: (128 + c.toNat / 64 % 64) ::
              (128 + c.toNat % 64) :: rest) = some (c.toNat, 3) := by
          have e1 : ¬ (240 + c.toNat / 262144 < 128) := by omega
          have e2 : ¬ (240 + c.toNat / 262144 < 192) := by omega
          have e3 : ¬ (240 + c.toNat / 262144 < 224) := by omega
          have e4 : ¬ (240 + c.toNat / 262144 < 240) := by omega
          have e5 : 240 + c.toNat / 262144 < 248 := by omega
          have e6 : (128 ≤ 128 + c.toNat / 4096 % 64 ∧ 128 + c.toNat / 4096 % 64 < 192) ∧
              (128 ≤ 128 + c.toNat / 64 % 64 ∧ 128 + c.toNat / 64 % 64 < 192) ∧
              (128 ≤ 128 + c.toNat % 64 ∧ 128 + c.toNat % 64 < 192) := by omega
          simp [utf8Step, e1, e2, e3, e4, e5, e6]
          all_goals omega
        rw [hb, List.cons_append, List.cons_append, List.cons_append, List.cons_append,
          List.nil_append, utf8Decode_of_step _ _ _ _ hstep, List.drop_succ_cons,
          List.drop_succ_cons, List.drop_succ_cons, List.drop_zero, hofn]

theorem utf8Decode_utf8Encode (cs : List Char) : utf8Decode (utf8Encode cs) = some cs := by
  induction cs with
  | nil => simp [utf8Encode, utf8Decode]
  | cons c cs ih =>
    rw [utf8Encode, utf8Decode_utf8Bytes, ih]
    rfl

/-! ### Helper lemmas about percent-encoding -/

theorem char_toNat_ofNat_ascii (b : Nat) (h : b < 128) : (Char.ofNat b).toNat = b :=
  char_toNat_ofNat b (Or.inl (by omega))

theorem charOfNat_ne_of_toNat_ne (b : Nat) (c : Char) (hb : b < 128) (hne : b ≠ c.toNat) :
    Char.ofNat b ≠ c := by
  intro he
  apply hne
  rw [← char_toNat_ofNat_ascii b hb, he]

theorem utf8Bytes_ofNat_ascii (b : Nat) (h : b < 128) : utf8Bytes (Char.ofNat b) = [b] := by
  have ht := char_toNat_ofNat_ascii b h
  simp [utf8Bytes, ht, h]

theorem hexDigitChar_spec (n : Nat) (h : n < 16) :
    isHexDigit (hexDigitChar n) = true ∧ hexVal (hexDigitChar n) = n ∧
      hexDigitChar n ≠ '+' ∧ hexDigitChar n ≠ '%' := by
  interval_cases n <;> exact (by decide)

theorem safeByte_ascii (extra : List Char) (b : Nat) (h : safeByte extra b = true) :
    b < 128 := by
  simp only [safeByte, decide_eq_true_eq] at h
  rcases h with h | h | h | h | h | h | h | h <;> omega

theorem percentDecode_cons (c : Char) (rest : List Char) :
    percentDecode (c :: rest) =
      (percentStep c rest).1 ++ percentDecode (rest.drop (percentStep c rest).2) := by
  rw [percentDecode]

theorem percentDecode_cons_plain (c : Char) (rest : List Char) (h : c ≠ '%') :
    percentDecode (c :: rest) = utf8Bytes c ++ percentDecode rest := by
  rw [percentDecode_cons]
  simp [percentStep, h]

theorem percentDecode_escape (h1 h2 : Char) (rest : List Char)
    (e1 : isHexDigit h1 = true) (e2 : isHexDigit h2 = true) :
    percentDecode ('%' :: h1 :: h2 :: rest) =
      (hexVal h1 * 16 + hexVal h2) :: percentDecode rest := by
  rw [percentDecode_cons]
  simp [percentStep, e1, e2]

theorem percentDecode_quoteBytes (extra : List Char) (h37 : safeByte extra 37 = false)
    (bs : List Nat) (hbs : ∀ b ∈ bs, b < 256) :
    percentDecode (quoteBytes extra bs) = bs := by
  induction bs with
  | nil => simp [quoteBytes, percentDecode]
  | cons b bs ih =>
    have hb : b < 256 := hbs b (List.mem_cons_self b bs)
    have hrest : ∀ x ∈ bs, x < 256 := fun x hx => hbs x (List.mem_cons_of_mem b hx)
    rw [quoteBytes]
    by_cases hs : safeByte extra b = true
    · rw [if_pos hs]
      have hb128 : b < 128 := safeByte_ascii extra b hs
      have hb37 : b ≠ 37 := by
        intro he
        rw [he, h37] at hs
        cases hs
      have hne : Char.ofNat b ≠ '%' :=
        charOfNat_ne_of_toNat_ne b '%' hb128 (by simpa using hb37)
      rw [List.singleton_append, percentDecode_cons_plain _ _ hne,
        utf8Bytes_ofNat_ascii b hb128, ih hrest, List.singleton_append]
    · rw [if_neg hs]
      have hd1 := hexDigitChar_spec (b / 16) (by omega)
      have hd2 := hexDigitChar_spec (b % 16) (by omega)
      rw [show percentEscape b ++ quoteBytes extra bs =
        '%' :: hexDigitChar (b / 16) :: hexDigitChar (b % 16) :: quoteBytes extra bs from rfl]
      rw [percentDecode_escape _ _ _ hd1.1 hd2.1, hd1.2.1, hd2.2.1, ih hrest]
      rw [show b / 16 * 16 + b % 16 = b from by omega]

theorem plus_not_mem_quoteBytes (extra : List Char) (h43 : safeByte extra 43 = false)
    (bs : List Nat) (hbs : ∀ b ∈ bs, b < 256) : '+' ∉ quoteBytes extra bs := by
  induction bs with
  | nil => simp [quoteBytes]
  | cons b bs ih =>
    have hb : b < 256 := hbs b (List.mem_cons_self b bs)
    have hrest : ∀ x ∈ bs, x < 256 := fun x hx => hbs x (List.mem_cons_of_mem b hx)
    rw [quoteBytes]
    intro hmem
    rw [List.mem_append] at hmem
    rcases hmem with hmem | hmem
    · by_cases hs : safeByte extra b = true
      · rw [if_pos hs] at hmem
        simp only [List.mem_singleton] at hmem
        have hb128 : b < 128 := safeByte_ascii extra b hs
        have hb43 : b ≠ 43 := by
          intro he
          rw [he, h43] at hs
          cases hs
        exact charOfNat_ne_of_toNat_ne b '+' hb128 (by simpa using hb43) hmem.symm
      · rw [if_neg hs] at hmem
        have hd1 := hexDigitChar_spec (b / 16) (by omega)
        have hd2 := hexDigitChar_spec (b % 16) (by omega)
        simp only [percentEscape, List.mem_cons, List.mem_singleton,
          List.not_mem_nil] at hmem
        rcases hmem with hmem | hmem | hmem | hmem
        · cases hmem
        · exact hd1.2.2.1 hmem.symm
        · exact hd2.2.2.1 hmem.symm
        · cases hmem
    · exact ih hrest hmem

theorem map_plus_id (xs : List Char) (h : '+' ∉ xs) :
    xs.map (fun c => if c = '+' then ' ' else c) = xs := by
  induction xs with
  | nil => rfl
  | cons c cs ih =>
    have hc : c ≠ '+' := by
      intro he
      exact h (by rw [he]; exact List.mem_cons_self _ _)
    rw [List.map_cons, if_neg hc, ih (fun hm => h (List.mem_cons_of_mem c hm))]

theorem map_space_plus_cancel (xs : List Char) (h : '+' ∉ xs) :
    (xs.map (fun c => if c = ' ' then '+' else c)).map
      (fun c => if c = '+' then ' ' else c) = xs := by
  induction xs with
  | nil => rfl
  | cons c cs ih =>
    have hc : c ≠ '+' := by
      intro he
      exact h (by rw [he]; exact List.mem_cons_self _ _)
    rw [List.map_cons, List.map_cons, ih (fun hm => h (List.mem_cons_of_mem c hm))]
    by_cases hsp : c = ' '
    · subst hsp
      simp
    · rw [if_neg hsp, if_neg hc]

/-! ### The handler's success branch, once and for all -/

theorem handle_file_success (cfg : Config) (getFile : String → Except String String)
    (message : Message) (fi : FileInfo) (fname b p : String)
    (hc : classify message = some (fi, fname))
    (hb : cfg.VERCEL_BASE_URL = some b) (hbne : b ≠ "")
    (hg : getFile fi.file_id = Except.ok p) :
    handle_file cfg getFile message =
      { replies := [responseText fname
          (b ++ "/watch/" ++ quote fname ++ "?file_url=" ++
            quote_plus (telegramFileUrl (pyStr cfg.BOT_TOKEN) p))
          (b ++ "/download/" ++ quote fname ++ "?file_url=" ++
            quote_plus (telegramFileUrl (pyStr cfg.BOT_TOKEN) p))],
        apiCalls := [fi.file_id] } := by
  simp [handle_file, hc, hb, hg, truthy, pyStr, hbne]

/-! ### The claims -/

/-- C8: Encoding round-trips — for every source URL string, decoding its
query-value encoding (`quote_plus`) with query-value decoding
(`unquote_plus`) yields exactly the original string, and for every
filename string, decoding its path-segment encoding (`quote`) with
path-segment decoding (`unquote`) yields exactly the original string
(`some` records that the strict decoder succeeds). -/
theorem claim_C8 (s : String) :
    unquote_plus (quote_plus s) = some s ∧ unquote (quote s) = some s := by
  constructor
  · rw [unquote_plus, quote_plus]
    by_cases hsp : ' ' ∈ s.data
    · rw [if_pos hsp]
      show unquote (String.mk (((quoteBytes [' '] (utf8Encode s.data)).map
        (fun c => if c = ' ' then '+' else c)).map
          (fun c => if c = '+' then ' ' else c))) = some s
      rw [map_space_plus_cancel _ (plus_not_mem_quoteBytes [' '] (by decide)
        (utf8Encode s.data) (utf8Encode_lt s.data))]
      show (utf8Decode (percentDecode (quoteBytes [' '] (utf8Encode s.data)))).map
        String.mk = some s
      rw [percentDecode_quoteBytes [' '] (by decide) (utf8Encode s.data)
        (utf8Encode_lt s.data), utf8Decode_utf8Encode]
      rfl
    · rw [if_neg hsp]
      show unquote (String.mk ((quoteBytes [] (utf8Encode s.data)).map
        (fun c => if c = '+' then ' ' else c))) = some s
      rw [map_plus_id _ (plus_not_mem_quoteBytes [] (by decide)
        (utf8Encode s.data) (utf8Encode_lt s.data))]
      show (utf8Decode (percentDecode (quoteBytes [] (utf8Encode s.data)))).map
        String.mk = some s
      rw [percentDecode_quoteBytes [] (by decide) (utf8Encode s.data)
        (utf8Encode_lt s.data), utf8Decode_utf8Encode]
      rfl
  · rw [quote, quote_with, unquote]
    show (utf8Decode (percentDecode (quoteBytes ['/'] (utf8Encode s.data)))).map
      String.mk = some s
    rw [percentDecode_quoteBytes ['/'] (by decide) (utf8Encode s.data)
      (utf8Encode_lt s.data), utf8Decode_utf8Encode]
    rfl

/-- C1: On every successful handler invocation the two percent-encoding
rules are applied to the correct operands and never swapped: the full
source URL, used as the `file_url` query value, is encoded with
`quote_plus` (query-string-value encoding, whose space is `+`), while
the filename, used as a path segment, is encoded with `quote`
(path-segment encoding, whose space is `%20`). -/
theorem claim_C1 (cfg : Config) (getFile : String → Except String String)
    (message : Message) (fi : FileInfo) (fname b p : String)
    (hc : classify message = some (fi, fname))
    (hb : cfg.VERCEL_BASE_URL = some b) (hbne : b ≠ "")
    (hg : getFile fi.file_id = Except.ok p) :
    (handle_file cfg getFile message).replies =
      [responseText fname
        (b ++ "/watch/" ++ quote fname ++ "?file_url=" ++
          quote_plus (telegramFileUrl (pyStr cfg.BOT_TOKEN) p))
        (b ++ "/download/" ++ quote fname ++ "?file_url=" ++
          quote_plus (telegramFileUrl (pyStr cfg.BOT_TOKEN) p))] ∧
    quote_plus " " = "+" ∧ quote " " = "%20" := by
  refine ⟨?_, by decide, by decide⟩
  rw [handle_file_success cfg getFile message fi fname b p hc hb hbne hg]

theorem claim_C1_witness :
    classify ⟨none, none, some ⟨"fid1", "u1", some "report final.txt"⟩⟩ =
      some (⟨"fid1", "u1", some "report final.txt"⟩, "report final.txt") ∧
    (⟨some "123:ABC", some "https://x.example"⟩ : Config).VERCEL_BASE_URL =
      some "https://x.example" ∧
    "https://x.example" ≠ "" ∧
    (fun _ : String => (Except.ok "documents/file 7.txt" : Except String String))
      (FileInfo.mk "fid1" "u1" (some "report final.txt")).file_id =
      Except.ok "documents/file 7.txt" ∧
    ((handle_file ⟨some "123:ABC", some "https://x.example"⟩
        (fun _ => Except.ok "documents/file 7.txt")
        ⟨none, none, some ⟨"fid1", "u1", some "report final.txt"⟩⟩).replies =
      [responseText "report final.txt"
        ("https://x.example" ++ "/watch/" ++ quote "report final.txt" ++ "?file_url=" ++
          quote_plus (telegramFileUrl
            (pyStr (⟨some "123:ABC", some "https://x.example"⟩ : Config).BOT_TOKEN)
            "documents/file 7.txt"))
        ("https://x.example" ++ "/download/" ++ quote "report final.txt" ++ "?file_url=" ++
          quote_plus (telegramFileUrl
            (pyStr (⟨some "123:ABC", some "https://x.example"⟩ : Config).BOT_TOKEN)
            "documents/file 7.txt"))] ∧
      quote_plus " " = "+" ∧ quote " " = "%20") :=
  ⟨rfl, rfl, by decide, rfl,
    claim_C1 ⟨some "123:ABC", some "https://x.example"⟩
      (fun _ => Except.ok "documents/file 7.txt")
      ⟨none, none, some ⟨"fid1", "u1", some "report final.txt"⟩⟩
      ⟨"fid1", "u1", some "report final.txt"⟩ "report final.txt"
      "https://x.example" "documents/file 7.txt" rfl rfl (by decide) rfl⟩

/-- C2 counterexample: an attachment can carry an explicit (empty)
name and still not have the produced filename equal that name — the
code falls back to the synthesized name whenever `file_name` is falsy,
which includes the explicit empty string. -/
theorem claim_C2_counterexample :
    (FileInfo.mk "vid2" "u2" (some "")).file_name = some "" ∧
    classify ⟨some ⟨"vid2", "u2", some ""⟩, none, none⟩ =
      some (⟨"vid2", "u2", some ""⟩, "video_u2.mp4") ∧
    "video_u2.mp4" ≠ "" :=
  ⟨rfl, rfl, by decide⟩

/-- C2 (amended): for every attachment with a non-empty explicit name
the produced filename equals that name; for every attachment whose name
is absent or the explicit empty string (the two falsy cases of
`file_name or ...`) the filename is synthesized as kind, underscore,
unique id, and the default extension — `.mp4` for video, `.mp3` for
audio, nothing for documents; in particular a video with no name and
unique id `abc123` yields exactly `video_abc123.mp4`. -/
theorem claim_C2 (fi : FileInfo) (oa od : Option FileInfo) :
    (∀ n : String, fi.file_name = some n → n ≠ "" →
      classify ⟨some fi, oa, od⟩ = some (fi, n) ∧
      classify ⟨none, some fi, od⟩ = some (fi, n) ∧
      classify ⟨none, none, some fi⟩ = some (fi, n)) ∧
    (fi.file_name = none ∨ fi.file_name = some "" →
      classify ⟨some fi, oa, od⟩ = some (fi, "video_" ++ fi.file_unique_id ++ ".mp4") ∧
      classify ⟨none, some fi, od⟩ = some (fi, "audio_" ++ fi.file_unique_id ++ ".mp3") ∧
      classify ⟨none, none, some fi⟩ = some (fi, "document_" ++ fi.file_unique_id)) ∧
    classify ⟨some ⟨"v1", "abc123", none⟩, none, none⟩ =
      some (⟨"v1", "abc123", none⟩, "video_abc123.mp4") := by
  refine ⟨?_, ?_, rfl⟩
  · intro n hn hne
    refine ⟨?_, ?_, ?_⟩ <;> simp [classify, pyOr, hn, hne]
  · intro hn
    rcases hn with hn | hn <;> refine ⟨?_, ?_, ?_⟩ <;> simp [classify, pyOr, hn]

theorem claim_C2_witness :
    ((FileInfo.mk "f8" "u8" (some "notes.pdf")).file_name = some "notes.pdf" ∧
      "notes.pdf" ≠ "" ∧
      classify ⟨some ⟨"f8", "u8", some "notes.pdf"⟩, none, none⟩ =
        some (⟨"f8", "u8", some "notes.pdf"⟩, "notes.pdf")) ∧
    (((FileInfo.mk "a8" "u9" (some "")).file_name = none ∨
        (FileInfo.mk "a8" "u9" (some "")).file_name = some "") ∧
      classify ⟨none, some ⟨"a8", "u9", some ""⟩, none⟩ =
        some (⟨"a8", "u9", some ""⟩, "audio_u9.mp3")) ∧
    ((FileInfo.mk "d8" "u10" none).file_name = none ∨
        (FileInfo.mk "d8" "u10" none).file_name = some "") ∧
    classify ⟨none, none, some ⟨"d8", "u10", none⟩⟩ =
      some (⟨"d8", "u10", none⟩, "document_u10") :=
  ⟨⟨rfl, by decide,
      ((claim_C2 ⟨"f8", "u8", some "notes.pdf"⟩ none none).1 "notes.pdf" rfl (by decide)).1⟩,
    ⟨Or.inr rfl,
      ((claim_C2 ⟨"a8", "u9", some ""⟩ none none).2.1 (Or.inr rfl)).2.1⟩,
    Or.inl rfl,
    ((claim_C2 ⟨"d8", "u10", none⟩ none none).2.1 (Or.inl rfl)).2.2⟩

/-- C3: the constructed source URL is exactly the fixed prefix
`https://api.telegram.org/file/bot` followed by the token, a slash and
the path fragment; and in the emitted links the token occurs only
inside the already-encoded `file_url` query value — the part of each
link before `?file_url=` is `watchFront`/`downloadFront`, functions of
the base URL and filename to which the token is not even an argument. -/
theorem claim_C3 (cfg : Config) (getFile : String → Except String String)
    (message : Message) (fi : FileInfo) (fname b p : String)
    (hc : classify message = some (fi, fname))
    (hb : cfg.VERCEL_BASE_URL = some b) (hbne : b ≠ "")
    (hg : getFile fi.file_id = Except.ok p) :
    (∀ t q : String, telegramFileUrl t q =
      "https://api.telegram.org/file/bot" ++ t ++ "/" ++ q) ∧
    (handle_file cfg getFile message).replies =
      [responseText fname
        (watchFront b fname ++ "?file_url=" ++
          quote_plus (telegramFileUrl (pyStr cfg.BOT_TOKEN) p))
        (downloadFront b fname ++ "?file_url=" ++
          quote_plus (telegramFileUrl (pyStr cfg.BOT_TOKEN) p))] := by
  refine ⟨fun t q => rfl, ?_⟩
  rw [handle_file_success cfg getFile message fi fname b p hc hb hbne hg]
  rfl

theorem claim_C3_witness :
    classify ⟨some ⟨"v9", "u9", none⟩, none, none⟩ =
      some (⟨"v9", "u9", none⟩, "video_u9.mp4") ∧
    (⟨some "SECRET", some "https://s.example"⟩ : Config).VERCEL_BASE_URL =
      some "https://s.example" ∧
    "https://s.example" ≠ "" ∧
    (fun _ : String => (Except.ok "videos/v.mp4" : Except String String))
      (FileInfo.mk "v9" "u9" none).file_id = Except.ok "videos/v.mp4" ∧
    ((∀ t q : String, telegramFileUrl t q =
        "https://api.telegram.org/file/bot" ++ t ++ "/" ++ q) ∧
      (handle_file ⟨some "SECRET", some "https://s.example"⟩
          (fun _ => Except.ok "videos/v.mp4")
          ⟨some ⟨"v9", "u9", none⟩, none, none⟩).replies =
        [responseText "video_u9.mp4"
          (watchFront "https://s.example" "video_u9.mp4" ++ "?file_url=" ++
            quote_plus (telegramFileUrl
              (pyStr (⟨some "SECRET", some "https://s.example"⟩ : Config).BOT_TOKEN)
              "videos/v.mp4"))
          (downloadFront "https://s.example" "video_u9.mp4" ++ "?file_url=" ++
            quote_plus (telegramFileUrl
              (pyStr (⟨some "SECRET", some "https://s.example"⟩ : Config).BOT_TOKEN)
              "videos/v.mp4"))]) :=
  ⟨rfl, rfl, by decide, rfl,
    claim_C3 ⟨some "SECRET", some "https://s.example"⟩
      (fun _ => Except.ok "videos/v.mp4") ⟨some ⟨"v9", "u9", none⟩, none, none⟩
      ⟨"v9", "u9", none⟩ "video_u9.mp4" "https://s.example" "videos/v.mp4"
      rfl rfl (by decide) rfl⟩

/-- C4: on every successful invocation the reply carries exactly the
two templated URLs `{base}/watch/{encodedFilename}?file_url={encodedSourceUrl}`
and `{base}/download/{encodedFilename}?file_url={encodedSourceUrl}`,
with the same encoded filename and the same encoded source URL in
both. -/
theorem claim_C4 (cfg : Config) (getFile : String → Except String String)
    (message : Message) (fi : FileInfo) (fname b p : String)
    (hc : classify message = some (fi, fname))
    (hb : cfg.VERCEL_BASE_URL = some b) (hbne : b ≠ "")
    (hg : getFile fi.file_id = Except.ok p) :
    ∃ ef es : String, ef = quote fname ∧
      es = quote_plus (telegramFileUrl (pyStr cfg.BOT_TOKEN) p) ∧
      (handle_file cfg getFile message).replies =
        [responseText fname (b ++ "/watch/" ++ ef ++ "?file_url=" ++ es)
          (b ++ "/download/" ++ ef ++ "?file_url=" ++ es)] := by
  refine ⟨quote fname, quote_plus (telegramFileUrl (pyStr cfg.BOT_TOKEN) p), rfl, rfl, ?_⟩
  rw [handle_file_success cfg getFile message fi fname b p hc hb hbne hg]

theorem claim_C4_witness :
    classify ⟨none, some ⟨"a3", "u3", none⟩, none⟩ =
      some (⟨"a3", "u3", none⟩, "audio_u3.mp3") ∧
    (⟨some "tok3", some "https://v.example"⟩ : Config).VERCEL_BASE_URL =
      some "https://v.example" ∧
    "https://v.example" ≠ "" ∧
    (fun _ : String => (Except.ok "music/song 1.mp3" : Except String String))
      (FileInfo.mk "a3" "u3" none).file_id = Except.ok "music/song 1.mp3" ∧
    (∃ ef es : String, ef = quote "audio_u3.mp3" ∧
      es = quote_plus (telegramFileUrl
        (pyStr (⟨some "tok3", some "https://v.example"⟩ : Config).BOT_TOKEN)
        "music/song 1.mp3") ∧
      (handle_file ⟨some "tok3", some "https://v.example"⟩
          (fun _ => Except.ok "music/song 1.mp3")
          ⟨none, some ⟨"a3", "u3", none⟩, none⟩).replies =
        [responseText "audio_u3.mp3"
          ("https://v.example" ++ "/watch/" ++ ef ++ "?file_url=" ++ es)
          ("https://v.example" ++ "/download/" ++ ef ++ "?file_url=" ++ es)]) :=
  ⟨rfl, rfl, by decide, rfl,
    claim_C4 ⟨some "tok3", some "https://v.example"⟩
      (fun _ => Except.ok "music/song 1.mp3") ⟨none, some ⟨"a3", "u3", none⟩, none⟩
      ⟨"a3", "u3", none⟩ "audio_u3.mp3" "https://v.example" "music/song 1.mp3"
      rfl rfl (by decide) rfl⟩

/-- C5 counterexample: with `botToken` unset but `externalBaseUrl` set,
the handler does NOT reply with a configuration error and DOES attempt
the platform API call — it only checks `VERCEL_BASE_URL` (src/bot.py
lines 62-64), so the claim as stated (\"either value unset\") fails. -/
theorem claim_C5_counterexample :
    (handle_file ⟨none, some "https://x.example"⟩ (fun _ => Except.ok "path/f.bin")
      ⟨none, none, some ⟨"doc1", "u1", some "f.bin"⟩⟩).apiCalls = ["doc1"] ∧
    (handle_file ⟨none, some "https://x.example"⟩ (fun _ => Except.ok "path/f.bin")
      ⟨none, none, some ⟨"doc1", "u1", some "f.bin"⟩⟩).replies ≠
      ["Error: VERCEL_BASE_URL is not configured. Please set the environment variable."] :=
  ⟨rfl, by decide⟩

/-- C5 (amended): if `externalBaseUrl` (`VERCEL_BASE_URL`) is unset
when a file message arrives, the handler replies with the
configuration-error message, attempts no platform API call and goes no
further; `botToken` is not checked inside the handler (only at process
start-up, outside the handler). -/
theorem claim_C5 (cfg : Config) (getFile : String → Except String String)
    (message : Message) (fi : FileInfo) (fname : String)
    (hc : classify message = some (fi, fname))
    (hb : cfg.VERCEL_BASE_URL = none) :
    handle_file cfg getFile message =
      { replies := ["Error: VERCEL_BASE_URL is not configured. Please set the environment variable."],
        apiCalls := [] } := by
  simp [handle_file, hc, hb, truthy]

theorem claim_C5_witness :
    classify ⟨none, none, some ⟨"d5", "u5", none⟩⟩ =
      some (⟨"d5", "u5", none⟩, "document_u5") ∧
    (⟨some "tok5", none⟩ : Config).VERCEL_BASE_URL = none ∧
    handle_file ⟨some "tok5", none⟩ (fun _ => Except.ok "p5")
      ⟨none, none, some ⟨"d5", "u5", none⟩⟩ =
      { replies := ["Error: VERCEL_BASE_URL is not configured. Please set the environment variable."],
        apiCalls := [] } :=
  ⟨rfl, rfl,
    claim_C5 ⟨some "tok5", none⟩ (fun _ => Except.ok "p5")
      ⟨none, none, some ⟨"d5", "u5", none⟩⟩ ⟨"d5", "u5", none⟩ "document_u5" rfl rfl⟩

/-- C6: when the platform file-metadata call raises, the exception is
caught inside the handler (the embedded handler is total and returns a
normal result), the only reply is the generic error message carrying
the literal exception text, and exactly the one attempted API call was
made. -/
theorem claim_C6 (cfg : Config) (getFile : String → Except String String)
    (message : Message) (fi : FileInfo) (fname b e : String)
    (hc : classify message = some (fi, fname))
    (hb : cfg.VERCEL_BASE_URL = some b) (hbne : b ≠ "")
    (hg : getFile fi.file_id = Except.error e) :
    handle_file cfg getFile message =
      { replies := ["An error occurred while generating the links: " ++ e],
        apiCalls := [fi.file_id] } := by
  simp [handle_file, hc, hb, hg, truthy, hbne]

theorem claim_C6_witness :
    classify ⟨some ⟨"v6", "u6", none⟩, none, none⟩ =
      some (⟨"v6", "u6", none⟩, "video_u6.mp4") ∧
    (⟨some "tok6", some "https://w.example"⟩ : Config).VERCEL_BASE_URL =
      some "https://w.example" ∧
    "https://w.example" ≠ "" ∧
    (fun _ : String => (Except.error "File is too big" : Except String String))
      (FileInfo.mk "v6" "u6" none).file_id = Except.error "File is too big" ∧
    handle_file ⟨some "tok6", some "https://w.example"⟩
      (fun _ => Except.error "File is too big") ⟨some ⟨"v6", "u6", none⟩, none, none⟩ =
      { replies := ["An error occurred while generating the links: " ++ "File is too big"],
        apiCalls := ["v6"] } :=
  ⟨rfl, rfl, by decide, rfl,
    claim_C6 ⟨some "tok6", some "https://w.example"⟩
      (fun _ => Except.error "File is too big") ⟨some ⟨"v6", "u6", none⟩, none, none⟩
      ⟨"v6", "u6", none⟩ "video_u6.mp4" "https://w.example" "File is too big"
      rfl rfl (by decide) rfl⟩

/-- C7: a message carrying none of video, audio or document gets
exactly the fixed guidance reply, no API call is attempted, and the
handler returns normally — for any configuration and any oracle. -/
theorem claim_C7 (cfg : Config) (getFile : String → Except String String) :
    handle_file cfg getFile ⟨none, none, none⟩ =
      { replies := ["Please send a file (video, audio, or document)."], apiCalls := [] } := rfl

/-- C9: when several attachment kinds are present simultaneously the
handler selects exactly one by fixed precedence — video first, then
audio, then document — and the result of the invocation is identical to
the one for a message carrying only the selected attachment. -/
theorem claim_C9 (cfg : Config) (getFile : String → Except String String)
    (v a d : FileInfo) (oa od : Option FileInfo) :
    classify ⟨some v, oa, od⟩ =
      some (v, pyOr v.file_name ("video_" ++ v.file_unique_id ++ ".mp4")) ∧
    classify ⟨none, some a, od⟩ =
      some (a, pyOr a.file_name ("audio_" ++ a.file_unique_id ++ ".mp3")) ∧
    classify ⟨none, none, some d⟩ =
      some (d, pyOr d.file_name ("document_" ++ d.file_unique_id)) ∧
    handle_file cfg getFile ⟨some v, oa, od⟩ = handle_file cfg getFile ⟨some v, none, none⟩ ∧
    handle_file cfg getFile ⟨none, some a, od⟩ = handle_file cfg getFile ⟨none, some a, none⟩ :=
  ⟨rfl, rfl, rfl, rfl, rfl⟩

/-- C10: the attachment-presence check precedes the configuration
check — with no recognized attachment the handler sends the guidance
reply and stops even when `VERCEL_BASE_URL` is unset, and that reply is
not the configuration-error reply. -/
theorem claim_C10 (t : Option String) (getFile : String → Except String String) :
    handle_file ⟨t, none⟩ getFile ⟨none, none, none⟩ =
      { replies := ["Please send a file (video, audio, or document)."], apiCalls := [] } ∧
    "Please send a file (video, audio, or document)." ≠
      "Error: VERCEL_BASE_URL is not configured. Please set the environment variable." :=
  ⟨rfl, by decide⟩

end FileToLink
